import Mathlib

/-!
Verification of the TrenerAI chat command core
(`app/commands/parser.py`, `app/commands/session.py`,
`app/commands/executor.py`, `app/services/chat_service.py`).

The Python code is shallowly embedded: regex patterns become terms of a
small `Re` AST executed by a backtracking matcher with Python `re.search`
semantics (leftmost position wins, alternatives tried left to right,
greedy/lazy quantifiers); the module-global `PENDING_ACTIONS` dict and
the storage collaborators become explicit state threaded through the
functions; `datetime.utcnow()` becomes an explicit `now : Nat` parameter
(seconds).
-/

/- ===== Characters: Python `str.lower`, `str.strip`, regex classes ===== -/

/-- Python `str.lower` restricted to the alphabet this program uses:
ASCII letters plus the nine Polish letter pairs appearing in the source. -/
def pyLowerChar (c : Char) : Char :=
  if 'A' ≤ c ∧ c ≤ 'Z' then Char.ofNat (c.toNat + 32)
  else if c = 'Ą' then 'ą' else if c = 'Ć' then 'ć' else if c = 'Ę' then 'ę'
  else if c = 'Ł' then 'ł' else if c = 'Ń' then 'ń' else if c = 'Ó' then 'ó'
  else if c = 'Ś' then 'ś' else if c = 'Ź' then 'ź' else if c = 'Ż' then 'ż'
  else c

/-- Whitespace recognized by Python `str.strip` and regex class backslash-s. -/
def isSpaceCh (c : Char) : Bool :=
  c == ' ' || c == '\t' || c == '\n' || c == '\r' || c == '\x0b' || c == '\x0c'

/-- Python `str.strip`: drop whitespace at both ends. -/
def pyStrip (l : List Char) : List Char :=
  ((l.dropWhile isSpaceCh).reverse.dropWhile isSpaceCh).reverse

def isDigitCh (c : Char) : Bool := '0' ≤ c && c ≤ '9'

def isAsciiAlpha (c : Char) : Bool :=
  ('A' ≤ c && c ≤ 'Z') || ('a' ≤ c && c ≤ 'z')

def polishChars : List Char :=
  ['Ą', 'Ć', 'Ę', 'Ł', 'Ń', 'Ó', 'Ś', 'Ź', 'Ż',
   'ą', 'ć', 'ę', 'ł', 'ń', 'ó', 'ś', 'ź', 'ż']

def isPolish (c : Char) : Bool := polishChars.contains c

/-- The class `[A-Za-zĄĆĘŁŃÓŚŹŻąćęłńóśźż]` of the source; the one-case
classes `[A-ZĄĆĘŁŃÓŚŹŻ]` and `[a-ząćęłńóśźż]` also denote this set because
every pattern using them carries `re.IGNORECASE`, which case-folds classes. -/
def isNameChar (c : Char) : Bool := isAsciiAlpha c || isPolish c

/-- The class `[A-Za-zĄĆĘŁŃÓŚŹŻąćęłńóśźż\s]` used by the name sub-parser. -/
def isNameSpChar (c : Char) : Bool := isNameChar c || isSpaceCh c

/-- Python regex `\w` on the alphabet this program uses. -/
def isWordChar (c : Char) : Bool :=
  isAsciiAlpha c || isDigitCh c || c == '_' || isPolish c

/-- Regex `.` (anything but a newline). -/
def isDotCh (c : Char) : Bool := !(c == '\n')

/-- Class `[\s:]`. -/
def clsSpColon (c : Char) : Bool := isSpaceCh c || c == ':'

/-- Class `[:\-]`. -/
def clsColonDash (c : Char) : Bool := c == ':' || c == '-'

/-- Class `[\s,]`. -/
def clsSpComma (c : Char) : Bool := isSpaceCh c || c == ','

/-- Class `[.,]`. -/
def clsDotComma (c : Char) : Bool := c == '.' || c == ','

/-- Case-insensitive "w is a prefix of s" (every source pattern whose
letters are case-asymmetric carries `re.IGNORECASE`). -/
def ciStarts : List Char → List Char → Bool
  | [], _ => true
  | _ :: _, [] => false
  | a :: w, b :: s => (pyLowerChar a == pyLowerChar b) && ciStarts w s

/-- Case-insensitive "w occurs as a substring of s". -/
def ciSub (w : List Char) (s : List Char) : Bool :=
  ciStarts w s ||
    match s with
    | [] => false
    | _ :: t => ciSub w t

/- ===== A tiny regex AST with Python re.search semantics ===== -/

/-- Regex AST. Quantifiers are restricted to single-character classes,
which is all the source patterns use; `opt` is greedy `?`, `lazyPlus`
is `+?`. -/
inductive Re where
  | bol : Re
  | eol : Re
  | wb : Re
  | lit : List Char → Re
  | cls : (Char → Bool) → Re
  | seq : Re → Re → Re
  | alt : Re → Re → Re
  | opt : Re → Re
  | star : (Char → Bool) → Re
  | plus : (Char → Bool) → Re
  | lazyPlus : (Char → Bool) → Re
  | grp : Nat → Re → Re

/-- Captured groups: group index paired with captured text. -/
abbrev Caps := List (Nat × List Char)

/-- Length of the maximal run of class characters at the head. -/
def countLead (p : Char → Bool) : List Char → Nat
  | [] => 0
  | c :: s => if p c then countLead p s + 1 else 0

/-- The character just before the point reached after consuming `j`
characters of `s`, given `pc` was the character before `s`. -/
def prevAt (pc : Option Char) (s : List Char) (j : Nat) : Option Char :=
  match (s.take j).getLast? with
  | some c => some c
  | none => pc

def isWordAt (pc : Option Char) : Bool :=
  match pc with
  | none => false
  | some c => isWordChar c

def headWord (s : List Char) : Bool :=
  match s with
  | [] => false
  | c :: _ => isWordChar c

/-- Greedy loop for `star`: try consuming `j` characters, longest first,
down to zero. -/
def greedyRun (pc : Option Char) (s : List Char) (cp : Caps)
    (k : Option Char → List Char → Caps → Option Caps) : Nat → Option Caps
  | 0 => k pc s cp
  | j + 1 =>
    match k (prevAt pc s (j + 1)) (s.drop (j + 1)) cp with
    | some r => some r
    | none => greedyRun pc s cp k j

/-- Greedy loop for `plus`: like `greedyRun` but at least one character. -/
def plusRun (pc : Option Char) (s : List Char) (cp : Caps)
    (k : Option Char → List Char → Caps → Option Caps) : Nat → Option Caps
  | 0 => none
  | j + 1 =>
    match k (prevAt pc s (j + 1)) (s.drop (j + 1)) cp with
    | some r => some r
    | none => plusRun pc s cp k j

/-- Lazy loop for `+?`: try `j` characters then count up, `rem` tries left. -/
def lazyRun (pc : Option Char) (s : List Char) (cp : Caps)
    (k : Option Char → List Char → Caps → Option Caps) (j : Nat) : Nat → Option Caps
  | 0 => none
  | rem + 1 =>
    match k (prevAt pc s j) (s.drop j) cp with
    | some r => some r
    | none => lazyRun pc s cp k (j + 1) rem

/-- The backtracking matcher, continuation style. `pc` is the character
before the current point (`none` at the absolute start of the message),
`s` the remaining input; the continuation receives point, rest, captures. -/
def Re.run : Re → Option Char → List Char → Caps →
    (Option Char → List Char → Caps → Option Caps) → Option Caps
  | .bol, pc, s, cp, k =>
    match pc with
    | none => k pc s cp
    | some _ => none
  | .eol, pc, s, cp, k =>
    match s with
    | [] => k pc s cp
    | _ :: _ => none
  | .wb, pc, s, cp, k =>
    if isWordAt pc != headWord s then k pc s cp else none
  | .lit w, pc, s, cp, k =>
    if ciStarts w s then k (prevAt pc s w.length) (s.drop w.length) cp else none
  | .cls p, _pc, s, cp, k =>
    match s with
    | c :: s2 => if p c then k (some c) s2 cp else none
    | [] => none
  | .seq a b, pc, s, cp, k =>
    a.run pc s cp (fun pc2 s2 cp2 => b.run pc2 s2 cp2 k)
  | .alt a b, pc, s, cp, k =>
    match a.run pc s cp k with
    | some r => some r
    | none => b.run pc s cp k
  | .opt a, pc, s, cp, k =>
    match a.run pc s cp k with
    | some r => some r
    | none => k pc s cp
  | .star p, pc, s, cp, k => greedyRun pc s cp k (countLead p s)
  | .plus p, pc, s, cp, k => plusRun pc s cp k (countLead p s)
  | .lazyPlus p, pc, s, cp, k =>
    match countLead p s with
    | 0 => none
    | m + 1 => lazyRun pc s cp k 1 (m + 1)
  | .grp n a, pc, s, cp, k =>
    a.run pc s cp (fun pc2 s2 cp2 =>
      k pc2 s2 ((n, s.take (s.length - s2.length)) :: cp2))

/-- Successful-match continuation: record group 0 (the whole match). -/
def succK (s : List Char) : Option Char → List Char → Caps → Option Caps :=
  fun _ s2 cp => some ((0, s.take (s.length - s2.length)) :: cp)

/-- `re.search`: try every start position left to right. -/
def searchAux (r : Re) : Option Char → List Char → Option Caps
  | pc, s =>
    match r.run pc s [] (succK s) with
    | some cp => some cp
    | none =>
      match s with
      | [] => none
      | c :: s2 => searchAux r (some c) s2

def reSearch (r : Re) (s : List Char) : Option Caps := searchAux r none s

/-- `re.match`: anchored at the start only. -/
def reMatchAt0 (r : Re) (s : List Char) : Option Caps :=
  r.run none s [] (succK s)

/-- `m.group n`: the captured text, `none` if the group did not match. -/
def capGet (cp : Caps) (n : Nat) : Option (List Char) :=
  (cp.find? (fun e => e.1 == n)).map (fun e => e.2)

/- ===== The source's command and payload types (app/commands/types.py) ===== -/

/-- `CommandType` of `app/commands/types.py`. -/
inductive CommandType where
  | CREATE_USER | LIST_USERS | SHOW_USER | DELETE_USER
  | CREATE_TRAINING | LIST_TRAININGS | HELP | NONE
deriving Repr, DecidableEq

/-- `CommandType.value` (the string tag). -/
def CommandType.val : CommandType → String
  | .CREATE_USER => "CREATE_USER"
  | .LIST_USERS => "LIST_USERS"
  | .SHOW_USER => "SHOW_USER"
  | .DELETE_USER => "DELETE_USER"
  | .CREATE_TRAINING => "CREATE_TRAINING"
  | .LIST_TRAININGS => "LIST_TRAININGS"
  | .HELP => "HELP"
  | .NONE => "NONE"

/-- The loosely-typed payload dict, one optional field per key the
extractors of `parser.py` ever write. -/
structure Payload where
  name : Option String := none
  age : Option Nat := none
  weight : Option Rat := none
  height : Option Rat := none
  goals : Option String := none
  difficulty : Option String := none
  mode : Option String := none
  num_people : Option Nat := none
  duration : Option Nat := none
  target_user : Option String := none
deriving Repr, DecidableEq

/-- `ParsedCommand` of `app/commands/types.py`. -/
structure ParsedCommand where
  command : CommandType
  payload : Payload := {}
  raw_match : String := ""
deriving Repr, DecidableEq

/- ===== The regex patterns of app/commands/parser.py ===== -/

/-- Literal regex text (matched case-insensitively, as every
`COMMAND_PATTERNS` entry carries `re.IGNORECASE`). -/
def L (s : String) : Re := Re.lit s.data

/-- A nonempty alternation of literal words, left to right. -/
def altL : List String → Re
  | [] => Re.cls (fun _ => false)
  | [w] => L w
  | w :: ws => Re.alt (L w) (altL ws)

/-- A word stem followed by `\w*`, e.g. `podopieczn\w*`. -/
def wordRe (w : String) : Re := Re.seq (L w) (Re.star isWordChar)

/-- A nonempty alternation of word stems, e.g.
`(?:podopieczn\w*|klient\w*|użytkownik\w*)`. -/
def altW : List String → Re
  | [] => Re.cls (fun _ => false)
  | [w] => wordRe w
  | w :: ws => Re.alt (wordRe w) (altW ws)

/-- `^(?:pomoc|help|komendy|commands|\?)$` -/
def helpRe : Re :=
  Re.seq .bol (Re.seq (altL ["pomoc", "help", "komendy", "commands", "?"]) .eol)

/-- `(?:dodaj|utwórz|stwórz|nowy|add|create)\s+(?:podopieczn\w*|klient\w*|użytkownik\w*|user\w*)[\s:]*(.+)` -/
def createKwRe : Re :=
  Re.seq (altL ["dodaj", "utwórz", "stwórz", "nowy", "add", "create"])
    (Re.seq (Re.plus isSpaceCh)
      (Re.seq (altW ["podopieczn", "klient", "użytkownik", "user"])
        (Re.seq (Re.star clsSpColon) (Re.grp 1 (Re.plus isDotCh)))))

/-- `(?:dodaj|utwórz|nowy)\s+([A-ZĄĆĘŁŃÓŚŹŻ][a-ząćęłńóśźż]+(?:\s+[A-ZĄĆĘŁŃÓŚŹŻ][a-ząćęłńóśźż]+)?(?:[\s,].+)?)`
(the one-case classes are folded by IGNORECASE, see `isNameChar`). -/
def createSimpleRe : Re :=
  Re.seq (altL ["dodaj", "utwórz", "nowy"])
    (Re.seq (Re.plus isSpaceCh)
      (Re.grp 1
        (Re.seq (Re.cls isNameChar)
          (Re.seq (Re.plus isNameChar)
            (Re.seq
              (Re.opt (Re.seq (Re.plus isSpaceCh)
                (Re.seq (Re.cls isNameChar) (Re.plus isNameChar))))
              (Re.opt (Re.seq (Re.cls clsSpComma) (Re.plus isDotCh))))))))

/-- `(?:lista|pokaż|wyświetl|list|show)\s+(?:podopieczn\w*|klient\w*|użytkownik\w*|wszystk\w*)` -/
def listUsersRe : Re :=
  Re.seq (altL ["lista", "pokaż", "wyświetl", "list", "show"])
    (Re.seq (Re.plus isSpaceCh)
      (altW ["podopieczn", "klient", "użytkownik", "wszystk"]))

/-- `(?:podopieczni|klienci|użytkownicy)$` -/
def barePluralRe : Re :=
  Re.seq (altL ["podopieczni", "klienci", "użytkownicy"]) .eol

/-- `(?:pokaż|dane|info|szczegóły|profil)\s+(?:podopieczn\w*|klient\w*)?\s*[:\-]?\s*([A-Za-zĄĆĘŁŃÓŚŹŻąćęłńóśźż]+)` -/
def showUserRe : Re :=
  Re.seq (altL ["pokaż", "dane", "info", "szczegóły", "profil"])
    (Re.seq (Re.plus isSpaceCh)
      (Re.seq (Re.opt (altW ["podopieczn", "klient"]))
        (Re.seq (Re.star isSpaceCh)
          (Re.seq (Re.opt (Re.cls clsColonDash))
            (Re.seq (Re.star isSpaceCh) (Re.grp 1 (Re.plus isNameChar)))))))

/-- `(?:usuń|usun|skasuj|delete|remove)\s+(?:podopieczn\w*|klient\w*|użytkownik\w*)?\s*[:\-]?\s*([A-Za-zĄĆĘŁŃÓŚŹŻąćęłńóśźż]+)` -/
def deleteUserRe : Re :=
  Re.seq (altL ["usuń", "usun", "skasuj", "delete", "remove"])
    (Re.seq (Re.plus isSpaceCh)
      (Re.seq (Re.opt (altW ["podopieczn", "klient", "użytkownik"]))
        (Re.seq (Re.star isSpaceCh)
          (Re.seq (Re.opt (Re.cls clsColonDash))
            (Re.seq (Re.star isSpaceCh) (Re.grp 1 (Re.plus isNameChar)))))))

/-- `(?:wygeneruj|stwórz|zrób|utwórz|generuj|create)\s+(?:plan\s+)?(?:trening\w*|training|circuit|obwód)` -/
def createTrainingRe : Re :=
  Re.seq (altL ["wygeneruj", "stwórz", "zrób", "utwórz", "generuj", "create"])
    (Re.seq (Re.plus isSpaceCh)
      (Re.seq (Re.opt (Re.seq (L "plan") (Re.plus isSpaceCh)))
        (Re.alt (wordRe "trening")
          (Re.alt (L "training") (Re.alt (L "circuit") (L "obwód"))))))

/-- `(?:trening|circuit|obwód)\s+(?:dla|na|for)\s+(\d+)` -/
def trainingForRe : Re :=
  Re.seq (altL ["trening", "circuit", "obwód"])
    (Re.seq (Re.plus isSpaceCh)
      (Re.seq (altL ["dla", "na", "for"])
        (Re.seq (Re.plus isSpaceCh) (Re.grp 1 (Re.plus isDigitCh)))))

/-- `(?:lista|pokaż|historia)\s+(?:trening\w*|plan\w*)` -/
def listTrainingsRe : Re :=
  Re.seq (altL ["lista", "pokaż", "historia"])
    (Re.seq (Re.plus isSpaceCh) (Re.alt (wordRe "trening") (wordRe "plan")))

/- ===== Data extractors of parser.py ===== -/

/-- `^([A-Za-zĄĆĘŁŃÓŚŹŻąćęłńóśźż\s]+?)(?:,|\d|$)` used with `re.match`. -/
def nameRe : Re :=
  Re.seq .bol
    (Re.seq (Re.grp 1 (Re.lazyPlus isNameSpChar))
      (Re.alt (L ",") (Re.alt (Re.cls isDigitCh) .eol)))

/-- `(\d+)\s*(?:lat|lata|roku|rok|years?|l\.?)` -/
def ageRe : Re :=
  Re.seq (Re.grp 1 (Re.plus isDigitCh))
    (Re.seq (Re.star isSpaceCh)
      (Re.alt (L "lat") (Re.alt (L "lata") (Re.alt (L "roku") (Re.alt (L "rok")
        (Re.alt (Re.seq (L "year") (Re.opt (L "s")))
          (Re.seq (L "l") (Re.opt (L ".")))))))))

/-- `(\d+(?:[.,]\d+)?)\s*(?:kg|kilo)` -/
def weightRe : Re :=
  Re.seq (Re.grp 1 (Re.seq (Re.plus isDigitCh)
      (Re.opt (Re.seq (Re.cls clsDotComma) (Re.plus isDigitCh)))))
    (Re.seq (Re.star isSpaceCh) (Re.alt (L "kg") (L "kilo")))

/-- `(\d+)\s*(?:cm|centymetr)` -/
def heightRe : Re :=
  Re.seq (Re.grp 1 (Re.plus isDigitCh))
    (Re.seq (Re.star isSpaceCh) (Re.alt (L "cm") (L "centymetr")))

/-- `cel[:\s]+(.+?)(?:,|$)` -/
def goalRe : Re :=
  Re.seq (L "cel")
    (Re.seq (Re.plus clsSpColon)
      (Re.seq (Re.grp 1 (Re.lazyPlus isDotCh)) (Re.alt (L ",") .eol)))

/-- `int` on a run of digits. -/
def digitsToNat (l : List Char) : Nat :=
  l.foldl (fun n c => 10 * n + (c.toNat - 48)) 0

/-- Python `float(text.replace(',', '.'))` on `\d+([.,]\d+)?` captures,
modelled exactly as the rational `intpart.fracpart = (intpart*10^k + fracpart) / 10^k`. -/
def pyFloat (l : List Char) : Rat :=
  let l2 := l.map (fun c => if c == ',' then '.' else c)
  let ip := l2.takeWhile (fun c => !(c == '.'))
  let fp := (l2.dropWhile (fun c => !(c == '.'))).drop 1
  mkRat (digitsToNat ip * 10 ^ fp.length + digitsToNat fp) (10 ^ fp.length)

/-- `parse_user_data` of `parser.py`: name anchored on the stripped text,
the other four fields searched in the raw text, all independently optional. -/
def parseUserData (text : List Char) : Payload :=
  { name := ((reMatchAt0 nameRe (pyStrip text)).bind (fun cp => capGet cp 1)).map
      (fun g => String.mk (pyStrip g)),
    age := ((reSearch ageRe text).bind (fun cp => capGet cp 1)).map digitsToNat,
    weight := ((reSearch weightRe text).bind (fun cp => capGet cp 1)).map pyFloat,
    height := ((reSearch heightRe text).bind (fun cp => capGet cp 1)).map
      (fun g => mkRat (digitsToNat g) 1),
    goals := ((reSearch goalRe text).bind (fun cp => capGet cp 1)).map
      (fun g => String.mk (pyStrip g)) }

/-- `\b(łatw|easy|pocz[aą]tkuj|beginner)\w*\b` -/
def easyRe : Re :=
  Re.seq .wb
    (Re.seq (Re.grp 1 (Re.alt (L "łatw") (Re.alt (L "easy")
        (Re.alt (Re.seq (L "pocz")
            (Re.seq (Re.cls (fun c => c == 'a' || c == 'ą')) (L "tkuj")))
          (L "beginner")))))
      (Re.seq (Re.star isWordChar) .wb))

/-- `\b(trudn|hard|zaawans|advanced)\w*\b` -/
def hardRe : Re :=
  Re.seq .wb
    (Re.seq (Re.grp 1 (altL ["trudn", "hard", "zaawans", "advanced"]))
      (Re.seq (Re.star isWordChar) .wb))

/-- `\b(średni|medium|intermediate)\w*\b` -/
def mediumRe : Re :=
  Re.seq .wb
    (Re.seq (Re.grp 1 (altL ["średni", "medium", "intermediate"]))
      (Re.seq (Re.star isWordChar) .wb))

/-- `\b(circuit|obwod|obwód)\w*\b` -/
def circuitRe : Re :=
  Re.seq .wb
    (Re.seq (Re.grp 1 (altL ["circuit", "obwod", "obwód"]))
      (Re.seq (Re.star isWordChar) .wb))

/-- `\b(common|wspóln|wspoln)\w*\b` -/
def commonRe : Re :=
  Re.seq .wb
    (Re.seq (Re.grp 1 (altL ["common", "wspóln", "wspoln"]))
      (Re.seq (Re.star isWordChar) .wb))

/-- `(\d+)\s*(?:osob|osób|person|people|uczestnik)` -/
def peopleRe : Re :=
  Re.seq (Re.grp 1 (Re.plus isDigitCh))
    (Re.seq (Re.star isSpaceCh)
      (altL ["osob", "osób", "person", "people", "uczestnik"]))

/-- `(\d+)\s*(?:minut|min)` -/
def durationRe : Re :=
  Re.seq (Re.grp 1 (Re.plus isDigitCh))
    (Re.seq (Re.star isSpaceCh) (altL ["minut", "min"]))

/-- `(?:dla|for)\s+([A-Za-zĄĆĘŁŃÓŚŹŻąćęłńóśźż]+)` -/
def forRe : Re :=
  Re.seq (altL ["dla", "for"])
    (Re.seq (Re.plus isSpaceCh) (Re.grp 1 (Re.plus isNameChar)))

/-- `parse_training_params` of `parser.py`. -/
def parseTrainingParams (text : List Char) : Payload :=
  { difficulty :=
      if (reSearch easyRe text).isSome then some "easy"
      else if (reSearch hardRe text).isSome then some "hard"
      else if (reSearch mediumRe text).isSome then some "medium"
      else none,
    mode :=
      if (reSearch circuitRe text).isSome then some "circuit"
      else if (reSearch commonRe text).isSome then some "common"
      else none,
    num_people := ((reSearch peopleRe text).bind (fun cp => capGet cp 1)).map digitsToNat,
    duration := ((reSearch durationRe text).bind (fun cp => capGet cp 1)).map digitsToNat,
    target_user := ((reSearch forRe text).bind (fun cp => capGet cp 1)).map
      (fun g => String.mk (pyStrip g)) }

/- ===== parse_command ===== -/

/-- One `COMMAND_PATTERNS` entry: recognizer, tag, payload extractor
(the extractor receives the captures and, for `m.string`, the whole
trimmed message). -/
abbrev PatternEntry := Re × CommandType × (Caps → List Char → Payload)

/-- `COMMAND_PATTERNS` of `parser.py`, in source order. -/
def COMMAND_PATTERNS : List PatternEntry :=
  [ (helpRe, .HELP, fun _ _ => {}),
    (createKwRe, .CREATE_USER, fun cp _ => parseUserData ((capGet cp 1).getD [])),
    (createSimpleRe, .CREATE_USER, fun cp _ => parseUserData ((capGet cp 1).getD [])),
    (listUsersRe, .LIST_USERS, fun _ _ => {}),
    (barePluralRe, .LIST_USERS, fun _ _ => {}),
    (showUserRe, .SHOW_USER, fun cp _ =>
      { name := some (String.mk (pyStrip ((capGet cp 1).getD []))) }),
    (deleteUserRe, .DELETE_USER, fun cp _ =>
      { name := some (String.mk (pyStrip ((capGet cp 1).getD []))) }),
    (createTrainingRe, .CREATE_TRAINING, fun _ msg => parseTrainingParams msg),
    (trainingForRe, .CREATE_TRAINING, fun cp _ =>
      { num_people := some (digitsToNat ((capGet cp 1).getD [])) }),
    (listTrainingsRe, .LIST_TRAININGS, fun _ _ => {}) ]

/-- The loop body of `parse_command`: first matching pattern wins. -/
def runPatterns : List PatternEntry → List Char → ParsedCommand
  | [], _ => { command := .NONE }
  | (r, t, ext) :: rest, msg =>
    match reSearch r msg with
    | some cp =>
      { command := t, payload := ext cp msg,
        raw_match := String.mk ((capGet cp 0).getD []) }
    | none => runPatterns rest msg

/-- `parse_command` of `parser.py`: strip, then try the ordered patterns. -/
def parseCommand (message : String) : ParsedCommand :=
  runPatterns COMMAND_PATTERNS (pyStrip message.data)

/- ===== app/commands/session.py ===== -/

/-- `PendingAction` of `session.py`; timestamps are seconds (`Nat`). -/
structure PendingAction where
  command : String
  payload : Payload
  preview_message : String
  created_at : Nat
  expires_at : Nat
deriving Repr, DecidableEq

/-- The 5-minute TTL of `PendingAction.expires_at`, in seconds. -/
def pendingTTL : Nat := 5 * 60

/-- `utcnow() > self.expires_at`. -/
def PendingAction.isExpired (a : PendingAction) (now : Nat) : Bool :=
  a.expires_at < now

/-- The module-global `PENDING_ACTIONS` dict, one entry per session key. -/
abbrev PendingStore := List (String × PendingAction)

/-- `PENDING_ACTIONS.get(session_id)`. -/
def storeLookup (st : PendingStore) (sid : String) : Option PendingAction :=
  (st.find? (fun e => e.1 == sid)).map (fun e => e.2)

/-- `PENDING_ACTIONS.pop(session_id, None)` (`clear_pending_action`). -/
def storeClear (sid : String) (st : PendingStore) : PendingStore :=
  st.filter (fun e => !(e.1 == sid))

/-- `PENDING_ACTIONS[session_id] = action` (`set_pending_action`). -/
def storeSet (sid : String) (a : PendingAction) (st : PendingStore) : PendingStore :=
  (sid, a) :: storeClear sid st

/-- `get_pending_action`: look up, transparently evicting an expired entry. -/
def getPendingAction (st : PendingStore) (sid : String) (now : Nat) :
    Option PendingAction × PendingStore :=
  match storeLookup st sid with
  | some a => if a.isExpired now then (none, storeClear sid st) else (some a, st)
  | none => (none, st)

/-- `is_confirmation` of `session.py`: the lower-cased, stripped message
must equal one vocabulary entry. -/
def isConfirmation (message : String) : Option Bool :=
  let msg := String.mk (pyStrip (message.data.map pyLowerChar))
  if ["tak", "yes", "ok", "potwierdź", "potwierdzam", "dawaj", "jasne",
      "sure", "y"].contains msg then some true
  else if ["nie", "no", "anuluj", "cancel", "stop", "rezygnuję",
      "n"].contains msg then some false
  else none

/- ===== Collaborator storage state (app/storage, app/database) ===== -/

/-- A row of the `users` table as `_do_create_user` writes it. -/
structure DbUser where
  id : Nat
  email : String
  name : String
  age : Option Nat := none
  weight : Option Rat := none
  height : Option Rat := none
  goals : Option String := none
deriving Repr, DecidableEq

/-- The relational collaborator behind `self.db`. `fails` models the
SQLAlchemy session raising inside the `try` blocks; `next_id` the
autoincrement primary key. -/
structure DbState where
  users : List DbUser
  next_id : Nat
  fails : Bool
deriving Repr, DecidableEq

/-- A record of the JSON keyed-record fallback store (`app/storage`),
with the fields `add_client` writes. -/
structure Client where
  id : Nat
  name : String
  age : Nat := 0
  weight : Rat := 0
  goal : String := ""
  notes : String := ""
  createdAt : String := ""
deriving Repr, DecidableEq

/-- `get_client_by_name`: first client whose name contains the query
case-insensitively (`name.lower() in c["name"].lower()`). -/
def getClientByName (name : String) (clients : List Client) : Option Client :=
  clients.find? (fun c => ciSub name.data c.name.data)

/-- `delete_client_by_name` composed with `delete_client`: returns the
deleted record (if found) and the new client list. -/
def deleteClientByName (name : String) (clients : List Client) :
    Option Client × List Client :=
  match getClientByName name clients with
  | some c => (some c, clients.filter (fun x => !(x.id == c.id)))
  | none => (none, clients)

/-- `add_client`: append with a timestamp-derived fresh id (Python uses
`str(int(datetime.now().timestamp() * 1000))`) and a creation date. -/
def addClient (now : Nat) (c : Client) (clients : List Client) :
    Client × List Client :=
  let c2 := { c with id := now * 1000, createdAt := toString now }
  (c2, clients ++ [c2])

/- ===== app/commands/executor.py ===== -/

/-- The LangGraph inputs dict built by `ChatService._generate_training`. -/
structure TrainingInputs where
  num_people : Nat
  difficulty : String
  rest_time : Nat
  mode : String
  warmup_count : Nat
  main_count : Nat
  cooldown_count : Nat
deriving Repr, DecidableEq

/-- An opaque generated plan (`app_graph.invoke(...)["final_plan"]`). -/
structure Plan where
  items : List String := []
deriving Repr, DecidableEq, Inhabited

/-- The structured `data` dict a `CommandResult` or chat response may
carry, one optional field per key the code ever writes (`params` holds
the parsed payload in the executor's delegation result, `gen_params` the
defaulted inputs dict under the same `"params"` key of the generated
response). -/
structure RData where
  user_id : Option Nat := none
  name : Option String := none
  count : Option Nat := none
  use_langgraph : Bool := false
  params : Option Payload := none
  client : Option Client := none
  plan : Option Plan := none
  gen_params : Option TrainingInputs := none
deriving Repr, DecidableEq

/-- `CommandResult` of `types.py`. -/
structure CommandResult where
  success : Bool
  message : String
  data : Option RData := none
  needs_confirmation : Bool := false
deriving Repr, DecidableEq

/-- All state the executor reads or writes: the optional db session, the
JSON client store, and the pending-action store. -/
structure ExecState where
  db : Option DbState
  clients : List Client
  pending : PendingStore
deriving Repr, DecidableEq

/-- `f"{name.lower().replace(' ', '.')}@trenerai.local"`. -/
def emailOf (name : String) : String :=
  String.mk (name.data.map (fun c => if c == ' ' then '.' else pyLowerChar c))
    ++ "@trenerai.local"

def fmtOptNat (x : Option Nat) : String :=
  match x with
  | some n => toString n
  | none => "-"

def fmtOptRat (x : Option Rat) : String :=
  match x with
  | some q => toString q
  | none => "-"

def fmtOptStr (x : Option String) : String :=
  match x with
  | some s => s
  | none => "-"

/-- The confirmation preview `_create_user` builds. -/
def createPreview (p : Payload) : String :=
  "Dodać podopiecznego?\n\n| Pole | Wartość |\n|------|---------|\n| Imię | "
    ++ p.name.getD "Nieznany" ++ " |\n| Wiek | " ++ fmtOptNat p.age ++ " |\n| Waga | "
    ++ fmtOptRat p.weight ++ " kg |\n| Cel | " ++ fmtOptStr p.goals
    ++ " |\n\nPotwierdź: **tak** / **anuluj**"

/-- The `PendingAction` `_create_user` stages. -/
def stagedCreate (p : Payload) (now : Nat) : PendingAction :=
  { command := "CREATE_USER", payload := p, preview_message := createPreview p,
    created_at := now, expires_at := now + pendingTTL }

/-- `CommandExecutor._create_user`: stage a confirmation, mutate nothing. -/
def execCreateUser (st : ExecState) (p : Payload) (sid : String) (now : Nat) :
    CommandResult × ExecState :=
  ({ success := true, message := createPreview p, needs_confirmation := true },
   { st with pending := storeSet sid (stagedCreate p now) st.pending })

/-- The users-table row `_do_create_user` builds from the payload. -/
def newDbUser (d : DbState) (p : Payload) : DbUser :=
  { id := d.next_id, email := emailOf (p.name.getD "Nieznany"),
    name := p.name.getD "Nieznany",
    age := p.age, weight := p.weight, height := p.height, goals := p.goals }

/-- The keyed record `_do_create_user` hands to `add_client`. -/
def newJsonClient (p : Payload) : Client :=
  { id := 0, name := p.name.getD "Nieznany", age := p.age.getD 0,
    weight := p.weight.getD 0, goal := p.goals.getD "", notes := "" }

/-- The db state after `_do_create_user` commits a row. -/
def dbAfterCreate (d : DbState) (p : Payload) : DbState :=
  { d with users := d.users ++ [newDbUser d p], next_id := d.next_id + 1 }

/-- `CommandExecutor._do_create_user`: the actual mutation. With a db
session it writes the users table (an exception yields a db-error result,
with no fallback); without one it appends to the JSON store. -/
def doCreateUser (st : ExecState) (p : Payload) (now : Nat) :
    CommandResult × ExecState :=
  let name := p.name.getD "Nieznany"
  match st.db with
  | some d =>
    if d.fails then
      ({ success := false, message := "Błąd bazy danych: DB error" }, st)
    else
      ({ success := true,
         message := "✓ Dodano podopiecznego **" ++ name ++ "** (ID: "
           ++ toString (newDbUser d p).id ++ ")",
         data := some { user_id := some (newDbUser d p).id, name := some name } },
       { st with db := some (dbAfterCreate d p) })
  | none =>
    ({ success := true,
       message := "✓ Dodano podopiecznego **" ++ name ++ "** (ID: "
         ++ toString (addClient now (newJsonClient p) st.clients).1.id ++ ")",
       data := some { user_id := some (addClient now (newJsonClient p) st.clients).1.id, name := some name } },
     { st with clients := (addClient now (newJsonClient p) st.clients).2 })

def dbUserRow (u : DbUser) : String :=
  "| " ++ toString u.id ++ " | " ++ u.name ++ " | " ++ fmtOptNat u.age
    ++ " | " ++ fmtOptRat u.weight ++ " kg | " ++ fmtOptStr u.goals ++ " |\n"

def clientRow (c : Client) : String :=
  "| " ++ c.name ++ " | " ++ toString c.age ++ " | " ++ toString c.weight
    ++ " kg | " ++ c.goal ++ " |\n"

/-- The JSON-store branch of `_list_users`. -/
def listUsersJson (st : ExecState) : CommandResult × ExecState :=
  if st.clients.isEmpty then
    ({ success := true, message := "Brak zarejestrowanych podopiecznych." }, st)
  else
    ({ success := true,
       message := "**Lista podopiecznych (" ++ toString st.clients.length
         ++ "):**\n\n" ++ "| Imię | Wiek | Waga | Cel |\n|---|---|---|---|\n"
         ++ String.join (st.clients.map clientRow),
       data := some { count := some st.clients.length } }, st)

/-- `CommandExecutor._list_users`: db first when available; a db failure
falls through to the JSON store. -/
def execListUsers (st : ExecState) : CommandResult × ExecState :=
  match st.db with
  | some d =>
    if d.fails then listUsersJson st
    else if d.users.isEmpty then
      ({ success := true, message := "Brak zarejestrowanych podopiecznych." }, st)
    else
      ({ success := true,
         message := "**Lista podopiecznych (" ++ toString d.users.length
           ++ "):**\n\n" ++ "| ID | Imię | Wiek | Waga | Cel |\n|---|---|---|---|---|\n"
           ++ String.join (d.users.map dbUserRow),
         data := some { count := some d.users.length } }, st)
  | none => listUsersJson st

/-- `CommandExecutor._show_user`: reads the JSON store only. -/
def execShowUser (st : ExecState) (p : Payload) : CommandResult × ExecState :=
  let name := p.name.getD ""
  match getClientByName name st.clients with
  | none =>
    ({ success := false,
       message := "Nie znaleziono podopiecznego: **" ++ name ++ "**" }, st)
  | some c =>
    ({ success := true,
       message := "**Profil: " ++ c.name ++ "**\n\n| Pole | Wartość |\n|------|---------|\n| Wiek | "
         ++ toString c.age ++ " |\n| Waga | " ++ toString c.weight
         ++ " kg |\n| Cel | " ++ c.goal ++ " |\n| Dodany | " ++ c.createdAt ++ " |",
       data := some { client := some c } }, st)

/-- The confirmation preview `_delete_user` builds. -/
def deletePreview (p : Payload) : String :=
  "Usunąć podopiecznego **" ++ p.name.getD ""
    ++ "**?\n\n⚠️ Ta operacja jest nieodwracalna.\n\nPotwierdź: **tak** / **anuluj**"

/-- The `PendingAction` `_delete_user` stages. -/
def stagedDelete (p : Payload) (now : Nat) : PendingAction :=
  { command := "DELETE_USER", payload := p, preview_message := deletePreview p,
    created_at := now, expires_at := now + pendingTTL }

/-- `CommandExecutor._delete_user`: stage a confirmation, mutate nothing. -/
def execDeleteUser (st : ExecState) (p : Payload) (sid : String) (now : Nat) :
    CommandResult × ExecState :=
  ({ success := true, message := deletePreview p, needs_confirmation := true },
   { st with pending := storeSet sid (stagedDelete p now) st.pending })

/-- `CommandExecutor._do_delete_user`: the actual deletion; it uses the
JSON store only, never `self.db`. -/
def doDeleteUser (st : ExecState) (p : Payload) : CommandResult × ExecState :=
  match deleteClientByName (p.name.getD "") st.clients with
  | (none, _) =>
    ({ success := false, message := "Nie znaleziono: " ++ p.name.getD "" }, st)
  | (some c, cl2) =>
    ({ success := true, message := "✓ Usunięto podopiecznego **" ++ c.name ++ "**" },
     { st with clients := cl2 })

/-- `CommandExecutor._create_training`: delegate to LangGraph via data. -/
def execCreateTraining (st : ExecState) (p : Payload) : CommandResult × ExecState :=
  ({ success := true, message := "",
     data := some { use_langgraph := true, params := some p } }, st)

/-- `CommandExecutor._list_trainings`. -/
def execListTrainings (st : ExecState) : CommandResult × ExecState :=
  ({ success := true, message := "**Historia treningów:**\n\n*Funkcja w budowie*" }, st)

def helpText : String :=
  "**Dostępne komendy:**\n\n**Podopieczni:**\n- dodaj podopiecznego Jan Kowalski, 30 lat, 80kg\n- dodaj Jana 30 lat *(skrócona forma)*\n- lista podopiecznych\n- pokaż dane Jan\n- usuń podopiecznego Jan\n\n**Treningi:**\n- wygeneruj trening, trudność: hard\n- circuit dla 5 osób\n\n**Inne:**\n- pomoc - ta lista"

/-- `CommandExecutor._help`. -/
def execHelp (st : ExecState) : CommandResult × ExecState :=
  ({ success := true, message := helpText }, st)

/-- `CommandExecutor.execute`: dispatch on the command tag. -/
def execute (st : ExecState) (cmd : ParsedCommand) (sid : String) (now : Nat) :
    CommandResult × ExecState :=
  match cmd.command with
  | .CREATE_USER => execCreateUser st cmd.payload sid now
  | .LIST_USERS => execListUsers st
  | .SHOW_USER => execShowUser st cmd.payload
  | .DELETE_USER => execDeleteUser st cmd.payload sid now
  | .CREATE_TRAINING => execCreateTraining st cmd.payload
  | .LIST_TRAININGS => execListTrainings st
  | .HELP => execHelp st
  | .NONE => ({ success := false, message := "Nieznana komenda" }, st)

/-- `CommandExecutor.execute_pending`: look up (with lazy eviction),
clear exactly once, then dispatch the private mutation. -/
def executePending (st : ExecState) (sid : String) (now : Nat) :
    CommandResult × ExecState :=
  match getPendingAction st.pending sid now with
  | (none, pend2) =>
    ({ success := false, message := "Brak oczekującej akcji do potwierdzenia." },
     { st with pending := pend2 })
  | (some a, pend2) =>
    let st2 : ExecState := { st with pending := storeClear sid pend2 }
    if a.command == "CREATE_USER" then doCreateUser st2 a.payload now
    else if a.command == "DELETE_USER" then doDeleteUser st2 a.payload
    else ({ success := false, message := "Nieobsługiwana akcja" }, st2)

/- ===== app/services/chat_service.py ===== -/

/-- External collaborators of the orchestrator: the plan generator
(LangGraph) and the generative RAG fallback, both opaque. -/
structure Collab where
  planGen : TrainingInputs → Plan
  rag : String → String

/-- `ChatRequest` of `app/schemas`. -/
structure ChatRequest where
  message : String
  history : List (String × String) := []
  session_id : Option String := some "default"

/-- The response dict `handle_message` returns; absent keys are `none`. -/
structure ChatResponse where
  response : String
  command : Option String := none
  rdata : Option RData := none
  needs_confirmation : Option Bool := none
deriving Repr, DecidableEq

/-- `request.session_id or "default"` (both a missing and an empty
session id fall back to the literal). -/
def sessionOf (req : ChatRequest) : String :=
  match req.session_id with
  | none => "default"
  | some s => if s == "" then "default" else s

/-- The defaults `_generate_training` applies for unspecified parameters. -/
def defaultInputs (params : Payload) : TrainingInputs :=
  { num_people := params.num_people.getD 1,
    difficulty := params.difficulty.getD "medium",
    rest_time := 60,
    mode := params.mode.getD "circuit",
    warmup_count := 3, main_count := 5, cooldown_count := 3 }

/-- Which collaborator call sites `handle_message` actually reached, in
order: the Confirmation Gate, the Pattern Matcher, `execute`,
`execute_pending`, LangGraph plan generation, or the RAG fallback. -/
inductive Step where
  | gate
  | matcher
  | executor
  | pendingExec
  | planGen (inputs : TrainingInputs)
  | fallback
deriving Repr, DecidableEq

/-- `ChatService._handle_confirmation`. -/
def handleConfirmation (st : ExecState) (sid : String) (now : Nat) :
    ChatResponse × ExecState × List Step :=
  match getPendingAction st.pending sid now with
  | (some a, pend2) =>
    let r := executePending { st with pending := pend2 } sid now
    ({ response := r.1.message, command := some a.command, rdata := r.1.data },
     r.2, [Step.pendingExec])
  | (none, pend2) =>
    ({ response := "Nie mam nic do potwierdzenia." },
     { st with pending := pend2 }, [])

/-- `ChatService._handle_cancellation`. -/
def handleCancellation (st : ExecState) (sid : String) :
    ChatResponse × ExecState × List Step :=
  ({ response := "Anulowano." }, { st with pending := storeClear sid st.pending }, [])

/-- The `data` dict of the generated-plan response. -/
def genRData (co : Collab) (params : Payload) : RData :=
  { plan := some (co.planGen (defaultInputs params)),
    gen_params := some (defaultInputs params) }

/-- `ChatService._generate_training`: apply defaults and call LangGraph. -/
def generateTraining (co : Collab) (st : ExecState) (params : Payload) :
    ChatResponse × ExecState × List Step :=
  ({ response := "**Plan treningowy wygenerowany!**\n\n*(szczegóły w data)*",
     command := some "CREATE_TRAINING", rdata := some (genRData co params) },
   st, [Step.planGen (defaultInputs params)])

/-- `ChatService._handle_command`. -/
def handleCommand (co : Collab) (st : ExecState) (parsed : ParsedCommand)
    (sid : String) (now : Nat) : ChatResponse × ExecState × List Step :=
  let r := execute st parsed sid now
  let useLG := match r.1.data with
    | some d => d.use_langgraph
    | none => false
  if useLG then
    let params := match r.1.data with
      | some d => d.params.getD {}
      | none => {}
    let g := generateTraining co r.2 params
    (g.1, g.2.1, Step.executor :: g.2.2)
  else
    ({ response := r.1.message,
       command := if r.1.success then some parsed.command.val else none,
       rdata := r.1.data,
       needs_confirmation := some r.1.needs_confirmation },
     r.2, [Step.executor])

/-- `ChatService.handle_message`: Confirmation Gate, then Pattern Matcher,
then executor, with the RAG fallback only on a NONE parse. -/
def handleMessage (co : Collab) (st : ExecState) (req : ChatRequest) (now : Nat) :
    ChatResponse × ExecState × List Step :=
  match isConfirmation req.message with
  | some true =>
    let r := handleConfirmation st (sessionOf req) now
    (r.1, r.2.1, Step.gate :: r.2.2)
  | some false =>
    let r := handleCancellation st (sessionOf req)
    (r.1, r.2.1, Step.gate :: r.2.2)
  | none =>
    if (parseCommand req.message).command ≠ CommandType.NONE then
      let r := handleCommand co st (parseCommand req.message) (sessionOf req) now
      (r.1, r.2.1, Step.gate :: Step.matcher :: r.2.2)
    else
      ({ response := co.rag req.message }, st,
       [Step.gate, Step.matcher, Step.fallback])

/- ===== Store lemmas ===== -/

theorem storeLookup_clear (sid : String) (st : PendingStore) :
    storeLookup (storeClear sid st) sid = none := by
  have h : (storeClear sid st).find? (fun e => e.1 == sid) = none := by
    rw [List.find?_eq_none]
    intro x hx
    have hq := (List.mem_filter.mp hx).2
    simp only [Bool.not_eq_true'] at hq
    simp [hq]
  simp [storeLookup, h]

theorem storeLookup_set (sid : String) (a : PendingAction) (st : PendingStore) :
    storeLookup (storeSet sid a st) sid = some a := by
  simp [storeSet, storeLookup, List.find?_cons]

theorem storeClear_of_lookup_none {sid : String} {st : PendingStore}
    (h : storeLookup st sid = none) : storeClear sid st = st := by
  have h2 : st.find? (fun e => e.1 == sid) = none := by
    cases hf : st.find? (fun e => e.1 == sid) with
    | none => rfl
    | some e => simp [storeLookup, hf] at h
  rw [List.find?_eq_none] at h2
  unfold storeClear
  rw [List.filter_eq_self]
  intro e he
  simpa using h2 e he

theorem storeClear_idem (sid : String) (st : PendingStore) :
    storeClear sid (storeClear sid st) = storeClear sid st :=
  storeClear_of_lookup_none (storeLookup_clear sid st)

theorem filter_storeClear (sid : String) (st : PendingStore) :
    (storeClear sid st).filter (fun e => e.1 == sid) = [] := by
  unfold storeClear
  rw [List.filter_filter]
  simp

/- ===== Lemmas: getPendingAction case analysis ===== -/

theorem getPendingAction_of_none {st : PendingStore} {sid : String} (now : Nat)
    (h : storeLookup st sid = none) :
    getPendingAction st sid now = (none, st) := by
  unfold getPendingAction
  rw [h]

theorem getPendingAction_of_expired {st : PendingStore} {sid : String}
    {a : PendingAction} {now : Nat} (h : storeLookup st sid = some a)
    (hx : a.expires_at < now) :
    getPendingAction st sid now = (none, storeClear sid st) := by
  unfold getPendingAction
  rw [h]
  simp [PendingAction.isExpired, hx]

theorem getPendingAction_of_live {st : PendingStore} {sid : String}
    {a : PendingAction} {now : Nat} (h : storeLookup st sid = some a)
    (hx : ¬ a.expires_at < now) :
    getPendingAction st sid now = (some a, st) := by
  unfold getPendingAction
  rw [h]
  simp [PendingAction.isExpired, hx]

/- ===== Lemmas: the private mutations never touch the pending store ===== -/

theorem doCreateUser_pending (st : ExecState) (p : Payload) (now : Nat) :
    (doCreateUser st p now).2.pending = st.pending := by
  unfold doCreateUser
  cases h : st.db with
  | none => simp
  | some d => cases hf : d.fails <;> simp [hf]

theorem doDeleteUser_pending (st : ExecState) (p : Payload) :
    (doDeleteUser st p).2.pending = st.pending := by
  unfold doDeleteUser
  cases h : deleteClientByName (p.name.getD "") st.clients with
  | mk c cl => cases c <;> simp

/-- Claim C2 helper: on a session with nothing retrievable, the executor
leaves the databases untouched and reports failure. -/
theorem executePending_absent (st : ExecState) (sid : String) (now : Nat)
    (pend2 : PendingStore)
    (h : getPendingAction st.pending sid now = (none, pend2)) :
    executePending st sid now =
      ({ success := false, message := "Brak oczekującej akcji do potwierdzenia." },
       { st with pending := pend2 }) := by
  unfold executePending
  rw [h]

/-- Helper: with a live pending action, `execute_pending` clears the
session's entry first and dispatches on the stored command tag. -/
theorem executePending_live (st : ExecState) (sid : String) (now : Nat)
    (a : PendingAction) (h : storeLookup st.pending sid = some a)
    (hx : ¬ a.expires_at < now) :
    executePending st sid now =
      (if a.command == "CREATE_USER" then
        doCreateUser { st with pending := storeClear sid st.pending } a.payload now
      else if a.command == "DELETE_USER" then
        doDeleteUser { st with pending := storeClear sid st.pending } a.payload
      else
        ({ success := false, message := "Nieobsługiwana akcja" },
         { st with pending := storeClear sid st.pending })) := by
  unfold executePending
  rw [getPendingAction_of_live h hx]

/-- Helper: with a live pending action, the dispatched mutation leaves a
pending store with no entry for the session. -/
theorem executePending_clears (st : ExecState) (sid : String) (now : Nat)
    (a : PendingAction) (h : storeLookup st.pending sid = some a)
    (hx : ¬ a.expires_at < now) :
    (executePending st sid now).2.pending = storeClear sid st.pending := by
  rw [executePending_live st sid now a h hx]
  by_cases h1 : a.command == "CREATE_USER"
  · simp [h1, doCreateUser_pending]
  · by_cases h2 : a.command == "DELETE_USER"
    · simp [h1, h2, doDeleteUser_pending]
    · simp [h1, h2]

/-- Claim C2: if no unexpired PendingAction is stored for a session
(never staged, already consumed, or expired), `execute_pending` returns
success=false with the explanatory message, entity storage is untouched,
`get` has transparently evicted any expired entry, and the call behaves
identically to one on a store where nothing was ever staged. -/
theorem c2_execute_pending_nothing_to_confirm (st : ExecState) (sid : String)
    (now : Nat)
    (h : storeLookup st.pending sid = none ∨
      ∃ a, storeLookup st.pending sid = some a ∧ a.expires_at < now) :
    (executePending st sid now).1.success = false ∧
    (executePending st sid now).1.message =
      "Brak oczekującej akcji do potwierdzenia." ∧
    storeLookup (executePending st sid now).2.pending sid = none ∧
    (executePending st sid now).2.clients = st.clients ∧
    (executePending st sid now).2.db = st.db ∧
    executePending st sid now =
      executePending { st with pending := storeClear sid st.pending } sid now := by
  rcases h with h | ⟨a, h, hx⟩
  · have hcl := storeClear_of_lookup_none h
    rw [executePending_absent st sid now st.pending (getPendingAction_of_none now h)]
    refine ⟨rfl, rfl, h, rfl, rfl, ?_⟩
    rw [hcl]
    rw [executePending_absent _ sid now st.pending (getPendingAction_of_none now h)]
  · rw [executePending_absent st sid now (storeClear sid st.pending)
      (getPendingAction_of_expired h hx)]
    refine ⟨rfl, rfl, storeLookup_clear sid st.pending, rfl, rfl, ?_⟩
    rw [executePending_absent _ sid now (storeClear sid st.pending)
      (getPendingAction_of_none now (storeLookup_clear sid st.pending))]

/-- A concrete action staged at time 0 (so expired from time 301 on). -/
def actExpired : PendingAction :=
  { command := "CREATE_USER", payload := {}, preview_message := "",
    created_at := 0, expires_at := 300 }

/-- A concrete state holding only `actExpired` for session "default". -/
def stExpired : ExecState :=
  { db := none, clients := [], pending := [("default", actExpired)] }

/-- Witness for C2 at a concrete expired action. -/
theorem c2_witness :
    (executePending stExpired "default" 1000).1.success = false :=
  (c2_execute_pending_nothing_to_confirm stExpired "default" 1000
    (Or.inr ⟨actExpired, by decide, by decide⟩)).1

/-- Claim C3: a staged PendingAction is consumed at most once: the
session's entry is cleared exactly once before the private mutation
dispatched on the stored command tag runs with the stored payload, and a
second affirmative on the same session yields success=false with no
further mutation of entity storage. -/
theorem c3_pending_consumed_once (st : ExecState) (sid : String) (now : Nat)
    (a : PendingAction) (h : storeLookup st.pending sid = some a)
    (hx : ¬ a.expires_at < now) :
    (a.command = "CREATE_USER" →
      executePending st sid now =
        doCreateUser { st with pending := storeClear sid st.pending } a.payload now) ∧
    (a.command = "DELETE_USER" →
      executePending st sid now =
        doDeleteUser { st with pending := storeClear sid st.pending } a.payload) ∧
    storeLookup (executePending st sid now).2.pending sid = none ∧
    (∀ now2 : Nat,
      (executePending (executePending st sid now).2 sid now2).1.success = false ∧
      (executePending (executePending st sid now).2 sid now2).1.message =
        "Brak oczekującej akcji do potwierdzenia." ∧
      (executePending (executePending st sid now).2 sid now2).2.clients =
        (executePending st sid now).2.clients ∧
      (executePending (executePending st sid now).2 sid now2).2.db =
        (executePending st sid now).2.db) := by
  have hclr := executePending_clears st sid now a h hx
  have hnone : storeLookup (executePending st sid now).2.pending sid = none := by
    rw [hclr]; exact storeLookup_clear sid st.pending
  refine ⟨?_, ?_, hnone, ?_⟩
  · intro hc
    rw [executePending_live st sid now a h hx]
    simp [hc]
  · intro hc
    rw [executePending_live st sid now a h hx]
    simp [hc]
  · intro now2
    have h2 := c2_execute_pending_nothing_to_confirm
      (executePending st sid now).2 sid now2 (Or.inl hnone)
    exact ⟨h2.1, h2.2.1, h2.2.2.2.1, h2.2.2.2.2.1⟩

/-- A concrete live DELETE_USER action for "Jan". -/
def actLive : PendingAction :=
  { command := "DELETE_USER", payload := { name := some "Jan" },
    preview_message := "", created_at := 0, expires_at := 300 }

/-- A concrete state with one client and `actLive` staged for "default". -/
def stLive : ExecState :=
  { db := none, clients := [{ id := 7, name := "Jan Kowalski" }],
    pending := [("default", actLive)] }

/-- Witness for C3 at a concrete live DELETE_USER action: the first
confirmation consumes the action, the second finds nothing. -/
theorem c3_witness :
    storeLookup (executePending stLive "default" 10).2.pending "default" = none ∧
    (executePending (executePending stLive "default" 10).2
      "default" 20).1.success = false := by
  refine ⟨(c3_pending_consumed_once stLive "default" 10 actLive
      (by decide) (by decide)).2.2.1,
    ((c3_pending_consumed_once stLive "default" 10 actLive
      (by decide) (by decide)).2.2.2 20).1⟩

/-- Claim C4: `set_pending_action` unconditionally overwrites: staging two
mutating commands for one session leaves exactly the second PendingAction
retrievable (last-write-wins) and exactly one entry for that session, and
a subsequent in-TTL confirmation executes only the second action. -/
theorem c4_last_write_wins (st st1 st2 : ExecState) (r1 r2 : CommandResult)
    (p1 p2 : Payload) (rm1 rm2 sid : String) (now1 now2 : Nat)
    (h1 : execute st { command := .CREATE_USER, payload := p1, raw_match := rm1 }
      sid now1 = (r1, st1))
    (h2 : execute st1 { command := .DELETE_USER, payload := p2, raw_match := rm2 }
      sid now2 = (r2, st2)) :
    storeLookup st2.pending sid = some (stagedDelete p2 now2) ∧
    (stagedDelete p2 now2).payload = p2 ∧
    (st2.pending.filter (fun e => e.1 == sid)).length = 1 ∧
    (∀ now3 : Nat, ¬ now2 + pendingTTL < now3 →
      executePending st2 sid now3 =
        doDeleteUser { st2 with pending := storeClear sid st2.pending } p2) := by
  have e1 : st1 =
      { st with pending := storeSet sid (stagedCreate p1 now1) st.pending } := by
    have := congrArg Prod.snd h1
    simpa [execute, execCreateUser] using this.symm
  have e2 : st2 =
      { st1 with pending := storeSet sid (stagedDelete p2 now2) st1.pending } := by
    have := congrArg Prod.snd h2
    simpa [execute, execDeleteUser] using this.symm
  subst e1 e2
  refine ⟨storeLookup_set sid _ _, rfl, ?_, ?_⟩
  · simp only [storeSet, List.filter_cons, beq_self_eq_true, if_pos]
    simp [filter_storeClear]
  · intro now3 h3
    rw [executePending_live _ sid now3 _ (storeLookup_set sid _ _)
      (by simpa [stagedDelete] using h3)]
    simp [stagedDelete]

/-- Concrete two-staging fixture for the C4 witness. -/
def p1W : Payload := { name := some "Ala" }

def p2W : Payload := { name := some "Ola" }

def st4a : ExecState :=
  (execute { db := none, clients := [], pending := [] }
    { command := .CREATE_USER, payload := p1W } "default" 100).2

def st4b : ExecState :=
  (execute st4a { command := .DELETE_USER, payload := p2W } "default" 200).2

/-- Witness for C4 on the concrete fixture. -/
theorem c4_witness :
    storeLookup st4b.pending "default" = some (stagedDelete p2W 200) ∧
    executePending st4b "default" 300 =
      doDeleteUser { st4b with pending := storeClear "default" st4b.pending } p2W := by
  have h := c4_last_write_wins { db := none, clients := [], pending := [] }
    st4a st4b
    (execute { db := none, clients := [], pending := [] }
      { command := .CREATE_USER, payload := p1W } "default" 100).1
    (execute st4a { command := .DELETE_USER, payload := p2W } "default" 200).1
    p1W p2W "" "" "default" 100 200 rfl rfl
  exact ⟨h.1, h.2.2.2 300 (by decide)⟩

/-- Claim C5: for CREATE_USER and DELETE_USER, `execute` mutates no entity
storage: it stages a PendingAction with the full payload under the session
and returns success=true, needs_confirmation=true with the preview text. -/
theorem c5_mutating_commands_only_stage (st : ExecState) (p : Payload)
    (rm sid : String) (now : Nat) (c : CommandType)
    (hc : c = CommandType.CREATE_USER ∨ c = CommandType.DELETE_USER) :
    (execute st { command := c, payload := p, raw_match := rm } sid now).1.success = true ∧
    (execute st { command := c, payload := p, raw_match := rm } sid now).1.needs_confirmation = true ∧
    (execute st { command := c, payload := p, raw_match := rm } sid now).1.message =
      (if c = CommandType.CREATE_USER then createPreview p else deletePreview p) ∧
    (execute st { command := c, payload := p, raw_match := rm } sid now).2.clients = st.clients ∧
    (execute st { command := c, payload := p, raw_match := rm } sid now).2.db = st.db ∧
    storeLookup (execute st { command := c, payload := p, raw_match := rm } sid now).2.pending sid
      = some (if c = CommandType.CREATE_USER then stagedCreate p now else stagedDelete p now) ∧
    (stagedCreate p now).payload = p ∧ (stagedDelete p now).payload = p ∧
    (stagedCreate p now).command = CommandType.CREATE_USER.val ∧
    (stagedDelete p now).command = CommandType.DELETE_USER.val := by
  rcases hc with hc | hc <;> subst hc <;>
    exact ⟨rfl, rfl, rfl, rfl, rfl, by
      simp [execute, execCreateUser, execDeleteUser, storeLookup_set],
      rfl, rfl, rfl, rfl⟩

/-- Witness for C5 at a concrete DELETE_USER staging. -/
theorem c5_witness :
    (execute stLive { command := .DELETE_USER, payload := p2W, raw_match := "" }
      "s1" 42).1.needs_confirmation = true ∧
    (execute stLive { command := .DELETE_USER, payload := p2W, raw_match := "" }
      "s1" 42).2.clients = stLive.clients :=
  ⟨(c5_mutating_commands_only_stage stLive p2W "" "s1" 42 .DELETE_USER (Or.inr rfl)).2.1,
   (c5_mutating_commands_only_stage stLive p2W "" "s1" 42 .DELETE_USER (Or.inr rfl)).2.2.2.1⟩

/-- Claim C6 counterexample: SHOW_USER is read-only, yet on an unknown
name `execute` returns success=false — refuting "read-only commands
always succeed". -/
theorem c6_counterexample :
    (execute { db := none, clients := [], pending := [] }
      { command := .SHOW_USER, payload := { name := some "Jan" }, raw_match := "" }
      "default" 0).1.success = false := by decide

/-- Claim C6 (amended): LIST_USERS, LIST_TRAININGS and HELP execute
immediately against storage, leave the state unchanged, and always return
success=true with needs_confirmation=false; SHOW_USER also runs
immediately with needs_confirmation=false, but returns success=true
exactly when some stored client's name contains the requested name
case-insensitively, and success=false otherwise. -/
theorem c6_read_only_commands (st : ExecState) (p : Payload) (rm sid : String)
    (now : Nat) :
    (execute st { command := .LIST_USERS, payload := p, raw_match := rm } sid now).1.success = true ∧
    (execute st { command := .LIST_USERS, payload := p, raw_match := rm } sid now).1.needs_confirmation = false ∧
    (execute st { command := .LIST_USERS, payload := p, raw_match := rm } sid now).2 = st ∧
    (execute st { command := .LIST_TRAININGS, payload := p, raw_match := rm } sid now).1.success = true ∧
    (execute st { command := .LIST_TRAININGS, payload := p, raw_match := rm } sid now).1.needs_confirmation = false ∧
    (execute st { command := .LIST_TRAININGS, payload := p, raw_match := rm } sid now).2 = st ∧
    (execute st { command := .HELP, payload := p, raw_match := rm } sid now).1.success = true ∧
    (execute st { command := .HELP, payload := p, raw_match := rm } sid now).1.needs_confirmation = false ∧
    (execute st { command := .HELP, payload := p, raw_match := rm } sid now).2 = st ∧
    (execute st { command := .SHOW_USER, payload := p, raw_match := rm } sid now).1.needs_confirmation = false ∧
    (execute st { command := .SHOW_USER, payload := p, raw_match := rm } sid now).2 = st ∧
    ((execute st { command := .SHOW_USER, payload := p, raw_match := rm } sid now).1.success = true
      ↔ (getClientByName (p.name.getD "") st.clients).isSome = true) := by
  have hlist : (execListUsers st).1.success = true ∧
      (execListUsers st).1.needs_confirmation = false ∧ (execListUsers st).2 = st := by
    unfold execListUsers listUsersJson
    cases hdb : st.db with
    | none =>
      by_cases hc : st.clients.isEmpty <;> simp [hc]
    | some d =>
      cases hf : d.fails with
      | true =>
        by_cases hc : st.clients.isEmpty <;> simp [hf, hc]
      | false =>
        by_cases hu : d.users.isEmpty <;> simp [hf, hu]
  have hshow : (execShowUser st p).1.needs_confirmation = false ∧
      (execShowUser st p).2 = st ∧
      ((execShowUser st p).1.success = true
        ↔ (getClientByName (p.name.getD "") st.clients).isSome = true) := by
    unfold execShowUser
    cases hg : getClientByName (p.name.getD "") st.clients <;> simp [hg]
  exact ⟨hlist.1, hlist.2.1, hlist.2.2, rfl, rfl, rfl, rfl, rfl, rfl,
    hshow.1, hshow.2.1, hshow.2.2⟩

/-- A concrete relational row for the user Jan. -/
def janRow : DbUser := { id := 1, email := "jan@trenerai.local", name := "Jan" }

/-- A concrete relational store holding only Jan. -/
def dbJan : DbState := { users := [janRow], next_id := 2, fails := false }

/-- A concrete state whose relational store holds the user Jan and whose
keyed-record store is empty. -/
def stDb : ExecState := { db := some dbJan, clients := [], pending := [] }

/-- Claim C7 counterexample: with a db handle present and Jan stored in the
relational store, the private deletion reports "not found" and leaves the
relational store untouched — it never attempts structured storage. -/
theorem c7_counterexample :
    (doDeleteUser stDb { name := some "Jan" }).1.success = false ∧
    (doDeleteUser stDb { name := some "Jan" }).2.db = stDb.db := by decide

/-- Claim C7 (amended): creation and listing attempt structured storage
first when a handle is available (listing falls back to the keyed store
when the handle is absent or fails; creation falls back only when the
handle is absent and reports a db error, without fallback, when it
fails); the private deletion operation invoked from `execute_pending`
never attempts structured storage: its result and its effect on the
keyed store are identical with and without a handle. -/
theorem c7_storage_duality (st : ExecState) (p : Payload) (now : Nat)
    (d : DbState) :
    (st.db = some d → d.fails = false →
      (doCreateUser st p now).1.success = true ∧
      (doCreateUser st p now).2.db = some (dbAfterCreate d p) ∧
      (doCreateUser st p now).2.clients = st.clients) ∧
    (st.db = some d → d.fails = true →
      (doCreateUser st p now).1.success = false ∧ (doCreateUser st p now).2 = st) ∧
    (st.db = none →
      (doCreateUser st p now).1.success = true ∧
      (doCreateUser st p now).2.clients = st.clients ++
        [{ newJsonClient p with id := now * 1000, createdAt := toString now }] ∧
      (doCreateUser st p now).2.db = none) ∧
    (st.db = some d → d.fails = false → d.users.isEmpty = false →
      (execListUsers st).1.data = some { count := some d.users.length }) ∧
    (st.db = none → execListUsers st = listUsersJson st) ∧
    (st.db = some d → d.fails = true → execListUsers st = listUsersJson st) ∧
    (doDeleteUser st p).2.db = st.db ∧
    (doDeleteUser st p).1 = (doDeleteUser { st with db := none } p).1 ∧
    (doDeleteUser st p).2.clients = (doDeleteUser { st with db := none } p).2.clients := by
  refine ⟨?_, ?_, ?_, ?_, ?_, ?_, ?_⟩
  · intro hdb hf
    unfold doCreateUser
    rw [hdb]
    simp [hf]
  · intro hdb hf
    unfold doCreateUser
    rw [hdb]
    simp [hf]
  · intro hdb
    unfold doCreateUser
    rw [hdb]
    simp [addClient]
  · intro hdb hf hu
    unfold execListUsers
    rw [hdb]
    simp [hf, hu]
  · intro hdb
    unfold execListUsers
    rw [hdb]
  · intro hdb hf
    unfold execListUsers
    rw [hdb]
    simp [hf]
  · have hdel : ∀ st2 : ExecState, (doDeleteUser st2 p).2.db = st2.db ∧
        (doDeleteUser st2 p).1 = (doDeleteUser { st2 with db := none } p).1 ∧
        (doDeleteUser st2 p).2.clients = (doDeleteUser { st2 with db := none } p).2.clients := by
      intro st2
      unfold doDeleteUser
      cases hd : deleteClientByName (p.name.getD "") st2.clients with
      | mk c cl => cases c <;> simp
    exact hdel st

/-- Witness for C7 on concrete states exercising the db and fallback paths. -/
theorem c7_witness :
    (doCreateUser stDb { name := some "Ewa" } 9).1.success = true ∧
    (doCreateUser stDb { name := some "Ewa" } 9).2.clients = stDb.clients ∧
    (doDeleteUser stDb { name := some "Jan" }).1 =
      (doDeleteUser { stDb with db := none } { name := some "Jan" }).1 := by
  have h := c7_storage_duality stDb { name := some "Ewa" } 9 dbJan
  have h2 := c7_storage_duality stDb { name := some "Jan" } 9 dbJan
  exact ⟨(h.1 rfl rfl).1, (h.1 rfl rfl).2.2, h2.2.2.2.2.2.2.2.1⟩

/-- A trivial collaborator pair for concrete runs. -/
def coStub : Collab := { planGen := fun _ => {}, rag := fun m => m }

/-- The empty execution state. -/
def stEmpty : ExecState := { db := none, clients := [], pending := [] }

/-- Claim C9: CREATE_TRAINING never stages a PendingAction and never sets
needs_confirmation: `execute` returns a delegation result and leaves the
state unchanged, and the orchestrator immediately calls the plan
generator with difficulty=medium, mode=circuit and participant count 1
defaulted in; "trening dla 5" parses to CREATE_TRAINING with participant
count 5. -/
theorem c9_create_training_delegates :
    (∀ (st : ExecState) (p : Payload) (rm sid : String) (now : Nat),
      (execute st { command := .CREATE_TRAINING, payload := p, raw_match := rm } sid now).1.needs_confirmation = false ∧
      (execute st { command := .CREATE_TRAINING, payload := p, raw_match := rm } sid now).1.data = some { use_langgraph := true, params := some p } ∧
      (execute st { command := .CREATE_TRAINING, payload := p, raw_match := rm } sid now).2 = st) ∧
    (∀ (co : Collab) (st : ExecState) (req : ChatRequest) (now : Nat),
      isConfirmation req.message = none →
      (parseCommand req.message).command = CommandType.CREATE_TRAINING →
      (handleMessage co st req now).2.2 = [Step.gate, Step.matcher, Step.executor,
        Step.planGen (defaultInputs (parseCommand req.message).payload)] ∧
      (handleMessage co st req now).1.needs_confirmation = none ∧
      (handleMessage co st req now).2.1 = st) ∧
    (parseCommand "trening dla 5").command = CommandType.CREATE_TRAINING ∧
    (parseCommand "trening dla 5").payload.num_people = some 5 := by
  refine ⟨fun st p rm sid now => ⟨rfl, rfl, rfl⟩, ?_, by decide, by decide⟩
  intro co st req now hconf hcmd
  have hgen : ∀ parsed : ParsedCommand, parsed.command = CommandType.CREATE_TRAINING →
      handleCommand co st parsed (sessionOf req) now =
        ((generateTraining co st parsed.payload).1, st,
         [Step.executor, Step.planGen (defaultInputs parsed.payload)]) := by
    intro parsed hp
    obtain ⟨c, p, rm⟩ := parsed
    have hc : c = CommandType.CREATE_TRAINING := hp
    subst hc
    simp [handleCommand, execute, execCreateTraining, generateTraining]
  have hcmd2 := hgen (parseCommand req.message) hcmd
  have hne : (parseCommand req.message).command ≠ CommandType.NONE := by
    rw [hcmd]
    decide
  simp only [handleMessage]
  rw [hconf]
  simp only [hne, if_true, ite_not, if_neg, hcmd2]
  simp [generateTraining, hcmd2]

/-- A concrete CREATE_TRAINING request. -/
def req5 : ChatRequest := { message := "trening dla 5" }

/-- Witness for C9 on the concrete request "trening dla 5". -/
theorem c9_witness :
    (handleMessage coStub stEmpty req5 0).2.2 = [Step.gate, Step.matcher,
      Step.executor, Step.planGen (defaultInputs (parseCommand "trening dla 5").payload)] ∧
    (handleMessage coStub stEmpty req5 0).1.needs_confirmation = none ∧
    (handleMessage coStub stEmpty req5 0).2.1 = stEmpty :=
  c9_create_training_delegates.2.1 coStub stEmpty req5 0 (by decide) (by decide)

/-- Helper: `_handle_confirmation` with a retrievable pending action
resolves through `execute_pending`. -/
theorem handleConfirmation_some (st : ExecState) (sid : String) (now : Nat)
    (a : PendingAction) (pend2 : PendingStore)
    (h : getPendingAction st.pending sid now = (some a, pend2)) :
    handleConfirmation st sid now =
      ({ response := (executePending { st with pending := pend2 } sid now).1.message,
         command := some a.command,
         rdata := (executePending { st with pending := pend2 } sid now).1.data },
       (executePending { st with pending := pend2 } sid now).2,
       [Step.pendingExec]) := by
  unfold handleConfirmation
  rw [h]

/-- Helper: `_handle_confirmation` with nothing retrievable answers with
the fixed message and never calls `execute_pending`. -/
theorem handleConfirmation_none (st : ExecState) (sid : String) (now : Nat)
    (pend2 : PendingStore)
    (h : getPendingAction st.pending sid now = (none, pend2)) :
    handleConfirmation st sid now =
      ({ response := "Nie mam nic do potwierdzenia." },
       { st with pending := pend2 }, []) := by
  unfold handleConfirmation
  rw [h]

/-- Helper: `_handle_command` never reaches the generative fallback. -/
theorem handleCommand_no_fallback (co : Collab) (st : ExecState)
    (parsed : ParsedCommand) (sid : String) (now : Nat) :
    Step.fallback ∉ (handleCommand co st parsed sid now).2.2 := by
  unfold handleCommand
  cases hd : (execute st parsed sid now).1.data with
  | none => simp [hd]
  | some d =>
    cases hl : d.use_langgraph <;> simp [hd, hl, generateTraining]

/-- Claim C1: `handle_message` consults the Confirmation Gate first with
short-circuit: on AFFIRM it resolves the pending action via
`execute_pending` (or reports "nothing to confirm"), on DENY it clears
the pending action and returns the fixed cancelled response, and in both
cases the Pattern Matcher never runs; only on NEITHER does the Pattern
Matcher run, and the Generative Fallback runs exactly when the parsed
command is NONE. -/
theorem c1_orchestrator_gate_first (co : Collab) (st : ExecState)
    (req : ChatRequest) (now : Nat) :
    (isConfirmation req.message = some true →
      Step.matcher ∉ (handleMessage co st req now).2.2 ∧
      Step.fallback ∉ (handleMessage co st req now).2.2 ∧
      (∀ (a : PendingAction) (pend2 : PendingStore),
        getPendingAction st.pending (sessionOf req) now = (some a, pend2) →
        Step.pendingExec ∈ (handleMessage co st req now).2.2 ∧
        (handleMessage co st req now).1.response =
          (executePending { st with pending := pend2 } (sessionOf req) now).1.message ∧
        (handleMessage co st req now).1.command = some a.command) ∧
      (∀ pend2 : PendingStore,
        getPendingAction st.pending (sessionOf req) now = (none, pend2) →
        (handleMessage co st req now).1.response = "Nie mam nic do potwierdzenia." ∧
        Step.pendingExec ∉ (handleMessage co st req now).2.2)) ∧
    (isConfirmation req.message = some false →
      Step.matcher ∉ (handleMessage co st req now).2.2 ∧
      Step.fallback ∉ (handleMessage co st req now).2.2 ∧
      (handleMessage co st req now).1 = { response := "Anulowano." } ∧
      (handleMessage co st req now).2.1 =
        { st with pending := storeClear (sessionOf req) st.pending }) ∧
    (isConfirmation req.message = none →
      Step.matcher ∈ (handleMessage co st req now).2.2 ∧
      (Step.fallback ∈ (handleMessage co st req now).2.2 ↔
        (parseCommand req.message).command = CommandType.NONE) ∧
      ((parseCommand req.message).command = CommandType.NONE →
        (handleMessage co st req now).1.response = co.rag req.message)) := by
  refine ⟨?_, ?_, ?_⟩
  · intro h
    simp only [handleMessage, h]
    cases hg : getPendingAction st.pending (sessionOf req) now with
    | mk o pend2 =>
      cases o with
      | some a =>
        rw [handleConfirmation_some st (sessionOf req) now a pend2 hg]
        refine ⟨by simp, by simp, ?_, ?_⟩
        · intro a2 pend3 hga
          injection hga with h1 h2
          injection h1 with h1
          subst h1
          subst h2
          exact ⟨by simp, rfl, rfl⟩
        · intro pend3 hga
          simp at hga
      | none =>
        rw [handleConfirmation_none st (sessionOf req) now pend2 hg]
        refine ⟨by simp, by simp, ?_, ?_⟩
        · intro a2 pend3 hga
          simp at hga
        · intro pend3 hga
          exact ⟨rfl, by simp⟩
  · intro h
    simp [handleMessage, h, handleCancellation]
  · intro h
    simp only [handleMessage, h]
    by_cases hq : (parseCommand req.message).command = CommandType.NONE
    · simp only [hq, ite_not, if_pos rfl]
      simp
    · simp only [ne_eq, hq, not_false_eq_true, if_pos]
      refine ⟨by simp, ?_, fun hc => hc.elim⟩
      constructor
      · intro hmem
        simp only [List.mem_cons] at hmem
        rcases hmem with h1 | h1 | h1
        · exact absurd h1 (by decide)
        · exact absurd h1 (by decide)
        · exact absurd h1 (handleCommand_no_fallback co st _ (sessionOf req) now)
      · intro hc
        exact hc.elim

/-- A concrete affirmative request. -/
def reqTak : ChatRequest := { message := "tak" }

/-- Witness for C1: on "tak" with a live pending action the matcher is
skipped and the pending execution path runs. -/
theorem c1_witness :
    Step.matcher ∉ (handleMessage coStub stLive reqTak 10).2.2 ∧
    Step.pendingExec ∈ (handleMessage coStub stLive reqTak 10).2.2 := by
  have h1 := (c1_orchestrator_gate_first coStub stLive reqTak 10).1 (by decide)
  exact ⟨h1.1, (h1.2.2.1 actLive stLive.pending (by decide)).1⟩

/-- Claim C8: `parse` is pure and on the three concrete inputs yields
CREATE_USER with name "Jan Kowalski", age 30, weight 80.0 and goals
"schudnąć"; HELP with an empty payload; and NONE. -/
theorem c8_parser_concrete_values :
    (parseCommand "dodaj podopiecznego Jan Kowalski, 30 lat, 80kg, cel: schudnąć").command = CommandType.CREATE_USER ∧
    (parseCommand "dodaj podopiecznego Jan Kowalski, 30 lat, 80kg, cel: schudnąć").payload.name = some "Jan Kowalski" ∧
    (parseCommand "dodaj podopiecznego Jan Kowalski, 30 lat, 80kg, cel: schudnąć").payload.age = some 30 ∧
    (parseCommand "dodaj podopiecznego Jan Kowalski, 30 lat, 80kg, cel: schudnąć").payload.weight = some 80 ∧
    (parseCommand "dodaj podopiecznego Jan Kowalski, 30 lat, 80kg, cel: schudnąć").payload.goals = some "schudnąć" ∧
    (parseCommand "pomoc").command = CommandType.HELP ∧
    (parseCommand "pomoc").payload = {} ∧
    (parseCommand "xyz totally unrecognized 123").command = CommandType.NONE := by
  decide

/- ===== Claim C10: unanchored substring recognition ===== -/

/-- The characters of "proszę usuń " (the text before the name token). -/
def framePre : List Char := ['p', 'r', 'o', 's', 'z', 'ę', ' ', 'u', 's', 'u', 'ń', ' ']

/-- The characters of " teraz" (the text after the name token). -/
def framePost : List Char := [' ', 't', 'e', 'r', 'a', 'z']

/-- The message "proszę usuń N teraz" surrounding a name token N. -/
def frameMsg (N : List Char) : List Char := framePre ++ N ++ framePost

/-- The trigger words of all `COMMAND_PATTERNS` rules that run before the
DELETE_USER rule and are recognized by unanchored substring search (the
HELP rule is whole-message anchored and needs no keyword condition). -/
def earlierKeywords : List String :=
  ["dodaj", "utwórz", "stwórz", "nowy", "add", "create",
   "lista", "pokaż", "wyświetl", "list", "show",
   "podopieczni", "klienci", "użytkownicy",
   "dane", "info", "szczegóły", "profil"]

/-- The optional entity-type keywords of the DELETE_USER rule. -/
def entityKeywords : List String := ["podopieczn", "klient", "użytkownik"]

theorem isNameChar_not_space {c : Char} (h : isNameChar c = true) :
    isSpaceCh c = false := by
  cases hsp : isSpaceCh c
  · rfl
  · exfalso
    have : c = ' ' ∨ c = '\t' ∨ c = '\n' ∨ c = '\r' ∨ c = '\x0b' ∨ c = '\x0c' := by
      simpa [isSpaceCh, beq_iff_eq, or_assoc] using hsp
    rcases this with rfl | rfl | rfl | rfl | rfl | rfl <;> exact absurd h (by decide)

theorem isNameChar_not_colonDash {c : Char} (h : isNameChar c = true) :
    clsColonDash c = false := by
  cases hcd : clsColonDash c
  · rfl
  · exfalso
    have : c = ':' ∨ c = '-' := by
      simpa [clsColonDash, beq_iff_eq] using hcd
    rcases this with rfl | rfl <;> exact absurd h (by decide)

theorem countLead_of_head_false {p : Char → Bool} {c : Char} (l : List Char)
    (h : p c = false) : countLead p (c :: l) = 0 := by
  simp [countLead, h]

theorem countLead_append_all (p : Char → Bool) (N tail : List Char)
    (hall : ∀ x ∈ N, p x = true) (htail : countLead p tail = 0) :
    countLead p (N ++ tail) = N.length := by
  induction N with
  | nil => simpa using htail
  | cons x xs ih =>
    have hx : p x = true := hall x (by simp)
    simp only [List.cons_append, countLead, hx, if_pos, List.append_eq]
    rw [ih (fun y hy => hall y (by simp [hy]))]
    simp

theorem pyStrip_of_no_space {N : List Char}
    (h : ∀ x ∈ N, isSpaceCh x = false) : pyStrip N = N := by
  have h1 : N.dropWhile isSpaceCh = N := by
    cases hn : N with
    | nil => rfl
    | cons x xs =>
      have := h x (by simp [hn])
      simp [List.dropWhile_cons, this]
  unfold pyStrip
  rw [h1]
  have h2 : N.reverse.dropWhile isSpaceCh = N.reverse := by
    cases hr : N.reverse with
    | nil => rfl
    | cons x xs =>
      have hx : x ∈ N := by
        have : x ∈ N.reverse := by simp [hr]
        simpa using this
      simp [List.dropWhile_cons, h x hx]
  rw [h2, List.reverse_reverse]

/-- An alternation of literals fails when no literal is a ci-prefix. -/
theorem altL_run_none (ws : List String) (pc : Option Char) (s : List Char)
    (cp : Caps) (k : Option Char → List Char → Caps → Option Caps)
    (h : ∀ w ∈ ws, ciStarts w.data s = false) :
    (altL ws).run pc s cp k = none := by
  induction ws with
  | nil => cases s <;> simp [altL, Re.run]
  | cons w tl ih =>
    have hw : ciStarts w.data s = false := h w (by simp)
    cases tl with
    | nil => simp [altL, L, Re.run, hw]
    | cons w2 tl2 =>
      have ih2 := ih (fun x hx => h x (by simp [hx]))
      simp [altL, L, Re.run, hw, ih2]

/-- An alternation of word stems fails when no stem is a ci-prefix. -/
theorem altW_run_none (ws : List String) (pc : Option Char) (s : List Char)
    (cp : Caps) (k : Option Char → List Char → Caps → Option Caps)
    (h : ∀ w ∈ ws, ciStarts w.data s = false) :
    (altW ws).run pc s cp k = none := by
  induction ws with
  | nil => cases s <;> simp [altW, Re.run]
  | cons w tl ih =>
    have hw : ciStarts w.data s = false := h w (by simp)
    cases tl with
    | nil => simp [altW, wordRe, L, Re.run, hw]
    | cons w2 tl2 =>
      have ih2 := ih (fun x hx => h x (by simp [hx]))
      simp [altW, wordRe, L, Re.run, hw, ih2]

/-- One failing position of `re.search` steps to the next position. -/
theorem searchAux_step (r : Re) (pc : Option Char) (c : Char) (s : List Char)
    (h : r.run pc (c :: s) [] (succK (c :: s)) = none) :
    searchAux r pc (c :: s) = searchAux r (some c) s := by
  simp only [searchAux]
  rw [h]

/-- A regex demanding start-of-message fails at all later positions. -/
theorem searchAux_bolseq (r : Re) : ∀ (s : List Char) (c : Char),
    searchAux (Re.seq .bol r) (some c) s = none := by
  intro s
  induction s with
  | nil => intro c; simp [searchAux, Re.run]
  | cons c2 tl ih => intro c; simp [searchAux, Re.run, ih]

/-- `re.search` of a pattern headed by an alternation of literal words
fails when none of the words occurs as a ci-substring. -/
theorem searchAux_litalt_none (ws : List String) (rest : Re) :
    ∀ (s : List Char) (pc : Option Char),
    (∀ w ∈ ws, ciSub w.data s = false) →
    searchAux (Re.seq (altL ws) rest) pc s = none := by
  intro s
  induction s with
  | nil =>
    intro pc h
    have hfail : (altL ws).run pc [] [] (fun pc2 s2 cp2 => rest.run pc2 s2 cp2 (succK [])) = none := by
      apply altL_run_none
      intro w hw
      have := h w hw
      simpa [ciSub] using this
    simp [searchAux, Re.run, hfail]
  | cons c tl ih =>
    intro pc h
    have hstarts : ∀ w ∈ ws, ciStarts w.data (c :: tl) = false := by
      intro w hw
      have := h w hw
      rw [ciSub] at this
      exact (Bool.or_eq_false_iff.mp this).1
    have hsub : ∀ w ∈ ws, ciSub w.data tl = false := by
      intro w hw
      have := h w hw
      rw [ciSub] at this
      exact (Bool.or_eq_false_iff.mp this).2
    have hfail : (Re.seq (altL ws) rest).run pc (c :: tl) [] (succK (c :: tl)) = none := by
      simp only [Re.run]
      exact altL_run_none ws pc (c :: tl) [] _ hstarts
    rw [searchAux_step _ _ _ _ hfail]
    exact ih (some c) hsub

/-- The DELETE_USER recognizer at the "usuń" position of the frame
message: it consumes "usuń ", skips no entity keyword, and captures the
whole name token greedily. -/
theorem deleteUserRe_match_at_usun (c : Char) (N' : List Char)
    (hc : isNameChar c = true) (hall : ∀ x ∈ N', isNameChar x = true)
    (hent : ∀ w ∈ entityKeywords, ciStarts w.data (c :: (N' ++ framePost)) = false) :
    deleteUserRe.run (some ' ') ('u' :: 's' :: 'u' :: 'ń' :: ' ' :: c :: (N' ++ framePost)) []
      (succK ('u' :: 's' :: 'u' :: 'ń' :: ' ' :: c :: (N' ++ framePost)))
    = some [(0, 'u' :: 's' :: 'u' :: 'ń' :: ' ' :: c :: N'), (1, c :: N')] := by
  have hsp : isSpaceCh c = false := isNameChar_not_space hc
  have hcd : clsColonDash c = false := isNameChar_not_colonDash hc
  have hent1 := hent "podopieczn" (by decide)
  have hent2 := hent "klient" (by decide)
  have hent3 := hent "użytkownik" (by decide)
  have hlit : ciStarts "usuń".data ('u' :: 's' :: 'u' :: 'ń' :: ' ' :: c :: (N' ++ framePost)) = true := rfl
  have hdrop4 : List.drop ("usuń".data.length) ('u' :: 's' :: 'u' :: 'ń' :: ' ' :: c :: (N' ++ framePost))
      = ' ' :: c :: (N' ++ framePost) := rfl
  have hcsp1 : countLead isSpaceCh (' ' :: c :: (N' ++ framePost)) = 1 := by
    rw [countLead]
    rw [countLead_of_head_false _ hsp]
    simp [isSpaceCh]
  have hplus1 : ∀ (pc : Option Char) (s : List Char) (cp : Caps)
      (k : Option Char → List Char → Caps → Option Caps),
      plusRun pc s cp k 1 =
        (match k (prevAt pc s 1) (s.drop 1) cp with
         | some r => some r
         | none => none) := by
    intro pc s cp k
    rfl
  have hdrop1 : List.drop 1 (' ' :: c :: (N' ++ framePost)) = c :: (N' ++ framePost) := rfl
  have hcsp0 : countLead isSpaceCh (c :: (N' ++ framePost)) = 0 :=
    countLead_of_head_false _ hsp
  have hcnt : countLead isNameChar (c :: (N' ++ framePost)) = N'.length + 1 := by
    have h0 := countLead_append_all isNameChar (c :: N') framePost
      (by
        intro x hx
        rcases List.mem_cons.mp hx with rfl | hx2
        · exact hc
        · exact hall x hx2)
      (by decide)
    simpa using h0
  have hdropN : List.drop (N'.length + 1) (c :: (N' ++ framePost)) = framePost := by
    rw [List.drop_succ_cons]
    exact List.drop_left N' framePost
  have htakeN : List.take ((c :: (N' ++ framePost)).length - framePost.length) (c :: (N' ++ framePost))
      = c :: N' := by
    have hlen : (c :: (N' ++ framePost)).length - framePost.length = N'.length + 1 := by
      simp [List.length_cons, List.length_append]
      omega
    rw [hlen, List.take_succ_cons]
    congr 1
    exact List.take_left N' framePost
  have htakeS : List.take (('u' :: 's' :: 'u' :: 'ń' :: ' ' :: c :: (N' ++ framePost)).length - framePost.length)
      ('u' :: 's' :: 'u' :: 'ń' :: ' ' :: c :: (N' ++ framePost)) = 'u' :: 's' :: 'u' :: 'ń' :: ' ' :: c :: N' := by
    have hlen : ('u' :: 's' :: 'u' :: 'ń' :: ' ' :: c :: (N' ++ framePost)).length - framePost.length
        = N'.length + 6 := by
      simp [List.length_cons, List.length_append]
      omega
    rw [hlen]
    show List.take (N'.length + 1 + 5) _ = _
    simp only [List.take_succ_cons]
    congr 1
    congr 1
    congr 1
    congr 1
    congr 1
    congr 1
    exact List.take_left N' framePost
  simp only [deleteUserRe, altL, altW, wordRe, L, Re.run, hlit, if_true, hdrop4,
    hcsp1, hplus1, hdrop1, hcsp0, hcnt, hdropN, htakeN, htakeS,
    hent1, hent2, hent3, hcd, hsp, if_false, greedyRun, plusRun, succK,
    Bool.false_eq_true]

/-- Stripping leaves the frame message unchanged. -/
theorem pyStrip_frameMsg (N : List Char) : pyStrip (frameMsg N) = frameMsg N := by
  unfold pyStrip
  have h1 : (frameMsg N).dropWhile isSpaceCh = frameMsg N := by
    rw [show frameMsg N =
      'p' :: (['r','o','s','z','ę',' ','u','s','u','ń',' '] ++ N ++ framePost) from by
        simp [frameMsg, framePre]]
    rw [List.dropWhile_cons]
    simp [isSpaceCh]
  rw [h1]
  have h2 : (frameMsg N).reverse.dropWhile isSpaceCh = (frameMsg N).reverse := by
    rw [show (frameMsg N).reverse =
      'z' :: (['a','r','e','t',' '] ++ (framePre ++ N).reverse) from by
        simp [frameMsg, framePost, List.reverse_append]]
    rw [List.dropWhile_cons]
    simp [isSpaceCh]
  rw [h2, List.reverse_reverse]

/-- The HELP rule (whole-message anchored) never fires on the frame. -/
theorem reSearch_help_frame (N : List Char) :
    reSearch helpRe (frameMsg N) = none := by
  unfold reSearch helpRe
  rw [show frameMsg N =
    'p' :: ('r' :: 'o' :: 's' :: 'z' :: 'ę' :: ' ' :: 'u' :: 's' :: 'u' :: 'ń' :: ' ' :: (N ++ framePost)) from by
      simp [frameMsg, framePre]]
  rw [searchAux_step _ _ _ _ (by rfl)]
  exact searchAux_bolseq _ _ _

/-- The DELETE_USER rule fires at the "usuń" position of the frame. -/
theorem reSearch_delete_frame (c : Char) (N' : List Char)
    (hc : isNameChar c = true) (hall : ∀ x ∈ N', isNameChar x = true)
    (hent : ∀ w ∈ entityKeywords, ciStarts w.data (c :: (N' ++ framePost)) = false) :
    reSearch deleteUserRe (frameMsg (c :: N')) =
      some [(0, 'u' :: 's' :: 'u' :: 'ń' :: ' ' :: c :: N'), (1, c :: N')] := by
  unfold reSearch
  rw [show frameMsg (c :: N') =
    'p' :: 'r' :: 'o' :: 's' :: 'z' :: 'ę' :: ' ' :: 'u' :: 's' :: 'u' :: 'ń' :: ' ' :: c :: (N' ++ framePost) from by
      simp [frameMsg, framePre]]
  rw [searchAux_step _ _ _ _ (by rfl)]
  rw [searchAux_step _ _ _ _ (by rfl)]
  rw [searchAux_step _ _ _ _ (by rfl)]
  rw [searchAux_step _ _ _ _ (by rfl)]
  rw [searchAux_step _ _ _ _ (by rfl)]
  rw [searchAux_step _ _ _ _ (by rfl)]
  rw [searchAux_step _ _ _ _ (by rfl)]
  rw [searchAux]
  rw [deleteUserRe_match_at_usun c N' hc hall hent]

/-- Claim C10 counterexample: "proszę usuń dodaj teraz" contains
"usuń dodaj", yet an earlier unanchored rule (the terse CREATE_USER
form triggered by "dodaj") claims the message first, so it is not
classified DELETE_USER with the contained name token. -/
theorem c10_counterexample :
    (parseCommand "proszę usuń dodaj teraz").command = CommandType.CREATE_USER ∧
    ¬ (parseCommand "proszę usuń dodaj teraz").command = CommandType.DELETE_USER := by
  decide

/-- Claim C10 (amended): every recognizer except the whole-anchored HELP
rule and the end-anchored bare-plural rule is matched by unanchored
substring search over the trimmed message; hence for every nonempty name
token N of letters, the message "proszę usuń N teraz" is classified
DELETE_USER with payload name=N — provided no earlier rule's trigger
keyword occurs in the message (case-insensitively) and the text after
"usuń " does not begin with an entity-type keyword — and so never
reaches the generative fallback, while the same surrounding text around
"pomoc" yields NONE, preventing a HELP classification. -/
theorem c10_unanchored_substring_search (N : List Char)
    (hne : N ≠ [])
    (hchars : ∀ x ∈ N, isNameChar x = true)
    (hkw : ∀ w ∈ earlierKeywords, ciSub w.data (frameMsg N) = false)
    (hent : ∀ w ∈ entityKeywords, ciStarts w.data (N ++ framePost) = false) :
    (parseCommand (String.mk (frameMsg N))).command = CommandType.DELETE_USER ∧
    (parseCommand (String.mk (frameMsg N))).payload.name = some (String.mk N) ∧
    (parseCommand (String.mk (frameMsg N))).command ≠ CommandType.NONE ∧
    (parseCommand "proszę pomoc teraz").command = CommandType.NONE := by
  obtain ⟨c, N', rfl⟩ := List.exists_cons_of_ne_nil hne
  have hc : isNameChar c = true := hchars c (by simp)
  have hall : ∀ x ∈ N', isNameChar x = true := fun x hx => hchars x (by simp [hx])
  have hent2 : ∀ w ∈ entityKeywords, ciStarts w.data (c :: (N' ++ framePost)) = false := by
    intro w hw
    have := hent w hw
    simpa using this
  have h1 := reSearch_help_frame (c :: N')
  have hk2 : ∀ w ∈ ["dodaj", "utwórz", "stwórz", "nowy", "add", "create"],
      ciSub w.data (frameMsg (c :: N')) = false := by
    intro w hw
    fin_cases hw <;> exact hkw _ (by decide)
  have h2 : reSearch createKwRe (frameMsg (c :: N')) = none := by
    unfold reSearch createKwRe
    exact searchAux_litalt_none _ _ _ none hk2
  have hk3 : ∀ w ∈ ["dodaj", "utwórz", "nowy"],
      ciSub w.data (frameMsg (c :: N')) = false := by
    intro w hw
    fin_cases hw <;> exact hkw _ (by decide)
  have h3 : reSearch createSimpleRe (frameMsg (c :: N')) = none := by
    unfold reSearch createSimpleRe
    exact searchAux_litalt_none _ _ _ none hk3
  have hk4 : ∀ w ∈ ["lista", "pokaż", "wyświetl", "list", "show"],
      ciSub w.data (frameMsg (c :: N')) = false := by
    intro w hw
    fin_cases hw <;> exact hkw _ (by decide)
  have h4 : reSearch listUsersRe (frameMsg (c :: N')) = none := by
    unfold reSearch listUsersRe
    exact searchAux_litalt_none _ _ _ none hk4
  have hk5 : ∀ w ∈ ["podopieczni", "klienci", "użytkownicy"],
      ciSub w.data (frameMsg (c :: N')) = false := by
    intro w hw
    fin_cases hw <;> exact hkw _ (by decide)
  have h5 : reSearch barePluralRe (frameMsg (c :: N')) = none := by
    unfold reSearch barePluralRe
    exact searchAux_litalt_none _ _ _ none hk5
  have hk6 : ∀ w ∈ ["pokaż", "dane", "info", "szczegóły", "profil"],
      ciSub w.data (frameMsg (c :: N')) = false := by
    intro w hw
    fin_cases hw <;> exact hkw _ (by decide)
  have h6 : reSearch showUserRe (frameMsg (c :: N')) = none := by
    unfold reSearch showUserRe
    exact searchAux_litalt_none _ _ _ none hk6
  have h7 := reSearch_delete_frame c N' hc hall hent2
  have hstrip : pyStrip (c :: N') = c :: N' :=
    pyStrip_of_no_space (fun x hx => isNameChar_not_space (hchars x hx))
  have hparse : parseCommand (String.mk (frameMsg (c :: N'))) =
      { command := CommandType.DELETE_USER,
        payload := { name := some (String.mk (c :: N')) },
        raw_match := String.mk ('u' :: 's' :: 'u' :: 'ń' :: ' ' :: c :: N') } := by
    unfold parseCommand
    rw [show (String.mk (frameMsg (c :: N'))).data = frameMsg (c :: N') from rfl]
    rw [pyStrip_frameMsg]
    simp only [COMMAND_PATTERNS, runPatterns, h1, h2, h3, h4, h5, h6, h7]
    simp [capGet, List.find?, hstrip]
  rw [hparse]
  refine ⟨rfl, rfl, ?_, by decide⟩
  intro h
  simp at h

/-- Witness for C10 with the concrete name token "Jana". -/
theorem c10_witness :
    (parseCommand (String.mk (frameMsg ['J', 'a', 'n', 'a']))).command
      = CommandType.DELETE_USER ∧
    (parseCommand (String.mk (frameMsg ['J', 'a', 'n', 'a']))).payload.name
      = some (String.mk ['J', 'a', 'n', 'a']) := by
  have h := c10_unanchored_substring_search ['J', 'a', 'n', 'a']
    (by decide) (by decide) (by decide) (by decide)
  exact ⟨h.1, h.2.1⟩
